import Mathlib

/-!
Shallow embedding of the order/inventory transactional core of the
backend (src/src/domain/entities/inventory.py, src/src/domain/entities/order.py,
src/src/application/services/order_service.py,
src/src/infrastructure/repositories/order_repository.py).

Conventions of the embedding:
* Python `int` is `Int`; Python `Decimal` is `ℚ` (all arithmetic the code
  performs on these values is exact decimal arithmetic, faithfully modelled
  by exact rationals); UUIDs are abstract `Nat` identifiers.
* A Python method that can `raise` becomes a function returning
  `Except DomainError _`; since every method performs all its guard checks
  before its first mutation, an error result corresponds to the object
  being left unchanged.
* `datetime` audit fields (`updated_at`, `confirmed_at`, ...) carry wall-clock
  time and are outside the embedding; no claim refers to them.
* Repositories are modelled as in-memory lists inside a `ServiceState`;
  `update` persists by id, `add` appends, exactly as the CRUD layer does.
-/

namespace Backend

/-- Error taxonomy of the domain layer (spec §7).  In the Python source all
of these are `ValueError`s distinguished by message / raise site; pydantic
field-constraint failures surface as `validationError`. -/
inductive DomainError where
  | invalidQuantity
  | insufficientStock
  | negativeStock
  | invalidTransition
  | emptyOrder
  | itemNotFound
  | notFound
  | validationError
  deriving DecidableEq, Repr

/-- `StockMovementType` enum from inventory.py. -/
inductive StockMovementType where
  | purchase
  | sale
  | adjustment
  | transfer
  | returned
  | damage
  | expired
  deriving DecidableEq, Repr

/-- `StockMovement` entity (audit record).  Identity / audit timestamp
fields are outside the embedding. -/
structure StockMovement where
  inventory_item_id : Nat
  movement_type : StockMovementType
  quantity : Int
  quantity_after : Int
  reference : Option String
  deriving DecidableEq, Repr

/-- `InventoryItem` aggregate root (stock-relevant fields). -/
structure InventoryItem where
  id : Nat
  organization_id : Nat
  sku : String
  name : String
  selling_price : ℚ
  quantity_on_hand : Int
  quantity_reserved : Int
  quantity_on_order : Int
  deriving DecidableEq, Repr

namespace InventoryItem

/-- `quantity_available` property: `max(0, on_hand - reserved)`. -/
def quantity_available (it : InventoryItem) : Int :=
  max 0 (it.quantity_on_hand - it.quantity_reserved)

/-- `receive_stock`: positive-quantity guard, then `on_hand += quantity`
and a PURCHASE movement with `quantity_after` the new on-hand. -/
def receive_stock (it : InventoryItem) (quantity : Int)
    (reference : Option String) : Except DomainError (InventoryItem × StockMovement) :=
  if quantity ≤ 0 then .error .invalidQuantity
  else
    let it' := { it with quantity_on_hand := it.quantity_on_hand + quantity }
    .ok (it', { inventory_item_id := it.id
                movement_type := .purchase
                quantity := quantity
                reference := reference
                quantity_after := it'.quantity_on_hand })

/-- `reserve_stock`: positive-quantity guard, insufficient-stock guard
against `quantity_available`, then `reserved += quantity`. -/
def reserve_stock (it : InventoryItem) (quantity : Int) :
    Except DomainError InventoryItem :=
  if quantity ≤ 0 then .error .invalidQuantity
  else if quantity > it.quantity_available then .error .insufficientStock
  else .ok { it with quantity_reserved := it.quantity_reserved + quantity }

/-- `release_reservation`: positive-quantity guard, then
`reserved = max(0, reserved - quantity)` (tolerant, clamped release). -/
def release_reservation (it : InventoryItem) (quantity : Int) :
    Except DomainError InventoryItem :=
  if quantity ≤ 0 then .error .invalidQuantity
  else .ok { it with quantity_reserved := max 0 (it.quantity_reserved - quantity) }

/-- `sell_stock`: positive-quantity guard, insufficient-stock guard against
`quantity_on_hand`, then `on_hand -= quantity`, `reserved` clamped down when
it was positive, and a SALE movement with negated quantity. -/
def sell_stock (it : InventoryItem) (quantity : Int) (order_id : Option Nat) :
    Except DomainError (InventoryItem × StockMovement) :=
  if quantity ≤ 0 then .error .invalidQuantity
  else if quantity > it.quantity_on_hand then .error .insufficientStock
  else
    let it' := { it with
      quantity_on_hand := it.quantity_on_hand - quantity
      quantity_reserved :=
        if it.quantity_reserved > 0 then max 0 (it.quantity_reserved - quantity)
        else it.quantity_reserved }
    .ok (it', { inventory_item_id := it.id
                movement_type := .sale
                quantity := -quantity
                reference := order_id.map toString
                quantity_after := it'.quantity_on_hand })

/-- `adjust_stock`: signed delta, negative-stock guard on the result, then
`on_hand = on_hand + quantity` and a movement of the given type. -/
def adjust_stock (it : InventoryItem) (quantity : Int) (reason : String)
    (movement_type : StockMovementType := .adjustment) :
    Except DomainError (InventoryItem × StockMovement) :=
  let new_quantity := it.quantity_on_hand + quantity
  if new_quantity < 0 then .error .negativeStock
  else
    let it' := { it with quantity_on_hand := new_quantity }
    .ok (it', { inventory_item_id := it.id
                movement_type := movement_type
                quantity := quantity
                reference := some reason
                quantity_after := it'.quantity_on_hand })

end InventoryItem

/-- One call in a sequence of stock operations (for the C2 invariant over
arbitrary call sequences). -/
inductive StockOp where
  | reserve (q : Int)
  | release (q : Int)
  | sell (q : Int) (order_id : Option Nat)
  | receive (q : Int) (reference : Option String)
  | adjust (q : Int) (reason : String) (t : StockMovementType)
  deriving DecidableEq, Repr

/-- Run one stock operation on an item; a failing call (raised exception)
leaves the item unchanged, because every guard precedes every mutation in
the source. -/
def applyStockOp (it : InventoryItem) : StockOp → InventoryItem
  | .reserve q =>
      match it.reserve_stock q with
      | .ok it' => it'
      | .error _ => it
  | .release q =>
      match it.release_reservation q with
      | .ok it' => it'
      | .error _ => it
  | .sell q oid =>
      match it.sell_stock q oid with
      | .ok (it', _) => it'
      | .error _ => it
  | .receive q r =>
      match it.receive_stock q r with
      | .ok (it', _) => it'
      | .error _ => it
  | .adjust q reason t =>
      match it.adjust_stock q reason t with
      | .ok (it', _) => it'
      | .error _ => it

/-- `OrderStatus` enum from order.py. -/
inductive OrderStatus where
  | draft
  | pending
  | confirmed
  | processing
  | shipped
  | delivered
  | cancelled
  | refunded
  deriving DecidableEq, Repr

namespace OrderStatus

/-- `can_modify` property: only DRAFT and PENDING. -/
def can_modify : OrderStatus → Bool
  | .draft => true
  | .pending => true
  | _ => false

/-- `can_cancel` property: DRAFT, PENDING, CONFIRMED, PROCESSING. -/
def can_cancel : OrderStatus → Bool
  | .draft => true
  | .pending => true
  | .confirmed => true
  | .processing => true
  | _ => false

end OrderStatus

/-- `OrderItem` value object (order line).  pydantic validates
`quantity ≥ 1`, `unit_price ≥ 0`, `discount_percent ∈ [0,100]`,
`tax_percent ≥ 0` at construction; `validOrderItem` below captures that. -/
structure OrderItem where
  id : Nat
  product_id : Nat
  product_name : String
  sku : String
  quantity : Int
  unit_price : ℚ
  discount_percent : ℚ
  tax_percent : ℚ
  notes : Option String
  deriving DecidableEq, Repr

namespace OrderItem

/-- pydantic field constraints on `OrderItem` construction. -/
def validOrderItem (i : OrderItem) : Bool :=
  1 ≤ i.quantity && 0 ≤ i.unit_price &&
    (0 ≤ i.discount_percent && i.discount_percent ≤ 100) && 0 ≤ i.tax_percent

/-- `subtotal = unit_price * quantity`. -/
def subtotal (i : OrderItem) : ℚ := i.unit_price * i.quantity

/-- `discount_amount = subtotal * (discount_percent / 100)`. -/
def discount_amount (i : OrderItem) : ℚ := i.subtotal * (i.discount_percent / 100)

/-- `taxable_amount = subtotal - discount_amount`. -/
def taxable_amount (i : OrderItem) : ℚ := i.subtotal - i.discount_amount

/-- `tax_amount = taxable_amount * (tax_percent / 100)`. -/
def tax_amount (i : OrderItem) : ℚ := i.taxable_amount * (i.tax_percent / 100)

/-- `total = taxable_amount + tax_amount`. -/
def total (i : OrderItem) : ℚ := i.taxable_amount + i.tax_amount

end OrderItem

/-- `Order` aggregate root (fields the transactional core touches). -/
structure Order where
  id : Nat
  order_number : String
  organization_id : Nat
  customer_name : String
  customer_email : Option String
  items : List OrderItem
  status : OrderStatus
  shipping_cost : ℚ
  handling_fee : ℚ
  internal_notes : Option String
  created_by : Option Nat
  deriving DecidableEq, Repr

namespace Order

/-- `subtotal` computed field: sum of item subtotals. -/
def subtotal (o : Order) : ℚ := (o.items.map OrderItem.subtotal).sum

/-- `total_discount` computed field: sum of item discount amounts. -/
def total_discount (o : Order) : ℚ := (o.items.map OrderItem.discount_amount).sum

/-- `total_tax` computed field: sum of item tax amounts. -/
def total_tax (o : Order) : ℚ := (o.items.map OrderItem.tax_amount).sum

/-- `grand_total` computed field: sum of item totals plus shipping cost
plus handling fee. -/
def grand_total (o : Order) : ℚ :=
  (o.items.map OrderItem.total).sum + o.shipping_cost + o.handling_fee

/-- `item_count` computed field: sum of item quantities. -/
def item_count (o : Order) : Int := (o.items.map OrderItem.quantity).sum

/-- Python `self.internal_notes or ''`. -/
def notesOrEmpty (o : Order) : String := o.internal_notes.getD ""

/-- `add_item`: guard `status.can_modify`, then append. -/
def add_item (o : Order) (item : OrderItem) : Except DomainError Order :=
  if o.status.can_modify then .ok { o with items := o.items ++ [item] }
  else .error .invalidTransition

/-- `remove_item`: guard `status.can_modify`, filter by id, fail when the
list length is unchanged. -/
def remove_item (o : Order) (item_id : Nat) : Except DomainError Order :=
  if o.status.can_modify then
    let kept := o.items.filter (fun i => i.id ≠ item_id)
    if kept.length = o.items.length then .error .itemNotFound
    else .ok { o with items := kept }
  else .error .invalidTransition

/-- `confirm`: PENDING and non-empty, to CONFIRMED. -/
def confirm (o : Order) : Except DomainError Order :=
  if o.status ≠ .pending then .error .invalidTransition
  else if o.items.isEmpty then .error .emptyOrder
  else .ok { o with status := .confirmed }

/-- `submit`: DRAFT and non-empty, to PENDING. -/
def submit (o : Order) : Except DomainError Order :=
  if o.status ≠ .draft then .error .invalidTransition
  else if o.items.isEmpty then .error .emptyOrder
  else .ok { o with status := .pending }

/-- `cancel`: guard `can_cancel`, to CANCELLED, append reason to internal
notes (Python `f"..."` + `.strip()`). -/
def cancel (o : Order) (reason : Option String) : Except DomainError Order :=
  if o.status.can_cancel then
    .ok { o with
      status := .cancelled
      internal_notes :=
        match reason with
        | some r => some ((o.notesOrEmpty ++ "\nCancelled: " ++ r).trim)
        | none => o.internal_notes }
  else .error .invalidTransition

/-- `ship`: CONFIRMED or PROCESSING, to SHIPPED, append tracking note. -/
def ship (o : Order) (tracking_number : Option String) : Except DomainError Order :=
  if o.status ≠ .confirmed ∧ o.status ≠ .processing then .error .invalidTransition
  else
    .ok { o with
      status := .shipped
      internal_notes :=
        match tracking_number with
        | some t => some ((o.notesOrEmpty ++ "\nTracking: " ++ t).trim)
        | none => o.internal_notes }

/-- `deliver`: SHIPPED to DELIVERED. -/
def deliver (o : Order) : Except DomainError Order :=
  if o.status ≠ .shipped then .error .invalidTransition
  else .ok { o with status := .delivered }

end Order

/-- One call to the Order lifecycle state machine (for C3). -/
inductive OrderCall where
  | submit
  | confirm
  | ship (tracking : Option String)
  | deliver
  | cancel (reason : Option String)
  deriving DecidableEq, Repr

/-- Dispatch one lifecycle call. -/
def applyCall (o : Order) : OrderCall → Except DomainError Order
  | .submit => o.submit
  | .confirm => o.confirm
  | .ship t => o.ship t
  | .deliver => o.deliver
  | .cancel r => o.cancel r

/-- Run one lifecycle call with exception semantics: a failing call leaves
the order unchanged (every guard in the source precedes every mutation). -/
def runCall (o : Order) (c : OrderCall) : Order :=
  match applyCall o c with
  | .ok o' => o'
  | .error _ => o

/-- The statuses from which each call is permitted, read off the source
guards. -/
def permitted (c : OrderCall) (s : OrderStatus) : Bool :=
  match c with
  | .submit => s == .draft
  | .confirm => s == .pending
  | .ship _ => s == .confirmed || s == .processing
  | .deliver => s == .shipped
  | .cancel _ => s.can_cancel

/-- The lifecycle graph of spec §4.2, per call. -/
def lifecycleEdge (c : OrderCall) (s t : OrderStatus) : Bool :=
  match c with
  | .submit => s == .draft && t == .pending
  | .confirm => s == .pending && t == .confirmed
  | .ship _ => (s == .confirmed || s == .processing) && t == .shipped
  | .deliver => s == .shipped && t == .delivered
  | .cancel _ => s.can_cancel && t == .cancelled

/-- A status move along some edge of the lifecycle graph. -/
def statusStep (s t : OrderStatus) : Prop := ∃ c, lifecycleEdge c s t = true

/-- The persisted world the OrderService operates on: the order rows, the
inventory rows and the append-only stock-movement log. -/
structure ServiceState where
  orders : List Order
  inventory : List InventoryItem
  movements : List StockMovement
  deriving DecidableEq, Repr

/-- `order_repo.get_by_id`. -/
def getOrder (s : ServiceState) (order_id : Nat) : Option Order :=
  s.orders.find? (fun o => o.id == order_id)

/-- `inventory_repo.get_by_id`. -/
def getInventory (s : ServiceState) (product_id : Nat) : Option InventoryItem :=
  s.inventory.find? (fun it => it.id == product_id)

/-- `order_repo.update`: replace the row with the same id. -/
def updateOrder (s : ServiceState) (o : Order) : ServiceState :=
  { s with orders := s.orders.map (fun p => if p.id == o.id then o else p) }

/-- `inventory_repo.update`: replace the row with the same id. -/
def updateInventory (s : ServiceState) (it : InventoryItem) : ServiceState :=
  { s with inventory := s.inventory.map (fun p => if p.id == it.id then it else p) }

/-- `inventory_repo.add_stock_movement`: append to the audit log. -/
def addMovement (s : ServiceState) (m : StockMovement) : ServiceState :=
  { s with movements := s.movements ++ [m] }

/-- Decimal digit string of a natural number (the canonical rendering
Python's `%d` produces). -/
def decRep (n : ℕ) : List Char :=
  if _h : n < 10 then [Nat.digitChar n]
  else decRep (n / 10) ++ [Nat.digitChar (n % 10)]
decreasing_by
  exact Nat.div_lt_self (by omega) (by omega)

/-- Python `f"{n:05d}"`: decimal digits left-padded with zeros to a minimum
width of 5. -/
def pad5 (n : ℕ) : String :=
  String.mk (List.replicate (5 - (decRep n).length) '0' ++ decRep n)

/-- `OrderRepository.generate_order_number`: count this organization's
existing orders, then format `ORD-<date>-<count+1 padded to 5>`.  The
current UTC date string is an external input of the embedding. -/
def generate_order_number (s : ServiceState) (organization_id : Nat)
    (dateStr : String) : String :=
  let count := (s.orders.filter (fun o => o.organization_id == organization_id)).length
  "ORD-" ++ dateStr ++ "-" ++ pad5 (count + 1)

/-- `OrderService.create_order`: allocate an order number, build a DRAFT
order with no items, persist it via `order_repo.add` (append).  The fresh
UUID and current date are external inputs. -/
def create_order (s : ServiceState) (organization_id : Nat)
    (customer_name : String) (customer_email : Option String)
    (created_by : Option Nat) (new_id : Nat) (dateStr : String) :
    Order × ServiceState :=
  let order : Order :=
    { id := new_id
      order_number := generate_order_number s organization_id dateStr
      organization_id := organization_id
      customer_name := customer_name
      customer_email := customer_email
      items := []
      status := .draft
      shipping_cost := 0
      handling_fee := 0
      internal_notes := none
      created_by := created_by }
  (order, { s with orders := s.orders ++ [order] })

/-- Python's `unit_price or inventory_item.selling_price`: `None` and the
falsy `Decimal("0")` both fall back to the selling price; any non-zero
override wins. -/
def effective_unit_price (unit_price : Option ℚ) (selling_price : ℚ) : ℚ :=
  match unit_price with
  | some p => if p = 0 then selling_price else p
  | none => selling_price

/-- `OrderService.add_item_to_order`: load order then product (NotFound on
either missing), availability check, build the OrderItem snapshotting
name/sku and taking the product's selling price when the override is falsy
(Python `unit_price or inventory_item.selling_price`), append it to the
order, reserve the stock, persist inventory then order.  The fresh line-item
UUID is an external input. -/
def add_item_to_order (s : ServiceState) (order_id product_id : Nat)
    (quantity : Int) (unit_price : Option ℚ) (discount_percent : ℚ)
    (new_item_id : Nat) : ServiceState × Except DomainError Order :=
  match getOrder s order_id with
  | none => (s, .error .notFound)
  | some order =>
    match getInventory s product_id with
    | none => (s, .error .notFound)
    | some inv =>
      if inv.quantity_available < quantity then (s, .error .insufficientStock)
      else
        let item : OrderItem :=
          { id := new_item_id
            product_id := inv.id
            product_name := inv.name
            sku := inv.sku
            quantity := quantity
            unit_price := effective_unit_price unit_price inv.selling_price
            discount_percent := discount_percent
            tax_percent := 0
            notes := none }
        if item.validOrderItem then
          match order.add_item item with
          | .error e => (s, .error e)
          | .ok order' =>
            match inv.reserve_stock quantity with
            | .error e => (s, .error e)
            | .ok inv' => (updateOrder (updateInventory s inv') order', .ok order')
        else (s, .error .validationError)

/-- The release loop of `cancel_order`: for each line, look the product up,
silently skip it when missing, release its reservation and persist; a
raised error aborts the loop, keeping the updates already persisted. -/
def releaseAll : List OrderItem → ServiceState → ServiceState × Option DomainError
  | [], s => (s, none)
  | item :: rest, s =>
    match getInventory s item.product_id with
    | none => releaseAll rest s
    | some inv =>
      match inv.release_reservation item.quantity with
      | .error e => (s, some e)
      | .ok inv' => releaseAll rest (updateInventory s inv')

/-- `OrderService.cancel_order`: release every line's reservation (persisting
each inventory row as it goes), THEN transition the order to CANCELLED and
persist it.  An exception raised by the transition leaves the already
persisted inventory updates in place. -/
def cancel_order (s : ServiceState) (order_id : Nat) (reason : Option String) :
    ServiceState × Except DomainError Order :=
  match getOrder s order_id with
  | none => (s, .error .notFound)
  | some order =>
    match releaseAll order.items s with
    | (s1, some e) => (s1, .error e)
    | (s1, none) =>
      match order.cancel reason with
      | .error e => (s1, .error e)
      | .ok order' => (updateOrder s1 order', .ok order')

/-- The commit loop of `ship_order`: for each line, look the product up,
silently skip it when missing, sell the stock, record the movement,
persist the inventory row; a raised error aborts the loop, keeping the
updates already persisted. -/
def sellAll (order_id : Nat) :
    List OrderItem → ServiceState → ServiceState × Option DomainError
  | [], s => (s, none)
  | item :: rest, s =>
    match getInventory s item.product_id with
    | none => sellAll order_id rest s
    | some inv =>
      match inv.sell_stock item.quantity (some order_id) with
      | .error e => (s, some e)
      | .ok (inv', m) => sellAll order_id rest (updateInventory (addMovement s m) inv')

/-- `OrderService.ship_order`: sell every line's stock (persisting movements
and inventory rows as it goes), THEN transition the order to SHIPPED and
persist it.  An exception raised by the transition leaves the already
persisted inventory updates in place. -/
def ship_order (s : ServiceState) (order_id : Nat)
    (tracking_number : Option String) : ServiceState × Except DomainError Order :=
  match getOrder s order_id with
  | none => (s, .error .notFound)
  | some order =>
    match sellAll order_id order.items s with
    | (s1, some e) => (s1, .error e)
    | (s1, none) =>
      match order.ship tracking_number with
      | .error e => (s1, .error e)
      | .ok order' => (updateOrder s1 order', .ok order')

/-! ### Equation lemmas for the stock operations -/

/-- `reserve_stock` written as nested conditionals. -/
theorem reserve_stock_eq (it : InventoryItem) (q : Int) :
    it.reserve_stock q =
      if q ≤ 0 then .error .invalidQuantity
      else if q > it.quantity_available then .error .insufficientStock
      else .ok { it with quantity_reserved := it.quantity_reserved + q } := rfl

/-- `release_reservation` written as a conditional. -/
theorem release_reservation_eq (it : InventoryItem) (q : Int) :
    it.release_reservation q =
      if q ≤ 0 then .error .invalidQuantity
      else .ok { it with quantity_reserved := max 0 (it.quantity_reserved - q) } := rfl

/-- `sell_stock` written as nested conditionals. -/
theorem sell_stock_eq (it : InventoryItem) (q : Int) (oid : Option Nat) :
    it.sell_stock q oid =
      if q ≤ 0 then .error .invalidQuantity
      else if q > it.quantity_on_hand then .error .insufficientStock
      else .ok
        ({ it with
            quantity_on_hand := it.quantity_on_hand - q
            quantity_reserved :=
              if it.quantity_reserved > 0 then max 0 (it.quantity_reserved - q)
              else it.quantity_reserved },
          { inventory_item_id := it.id
            movement_type := .sale
            quantity := -q
            reference := oid.map toString
            quantity_after := it.quantity_on_hand - q }) := rfl

/-- `receive_stock` written as a conditional. -/
theorem receive_stock_eq (it : InventoryItem) (q : Int) (r : Option String) :
    it.receive_stock q r =
      if q ≤ 0 then .error .invalidQuantity
      else .ok
        ({ it with quantity_on_hand := it.quantity_on_hand + q },
          { inventory_item_id := it.id
            movement_type := .purchase
            quantity := q
            reference := r
            quantity_after := it.quantity_on_hand + q }) := rfl

/-- `adjust_stock` written as a conditional. -/
theorem adjust_stock_eq (it : InventoryItem) (q : Int) (reason : String)
    (t : StockMovementType) :
    it.adjust_stock q reason t =
      if it.quantity_on_hand + q < 0 then .error .negativeStock
      else .ok
        ({ it with quantity_on_hand := it.quantity_on_hand + q },
          { inventory_item_id := it.id
            movement_type := t
            quantity := q
            reference := some reason
            quantity_after := it.quantity_on_hand + q }) := rfl

/-- Run-semantics of `reserve_stock`: failing calls leave the item as is. -/
theorem applyStockOp_reserve (it : InventoryItem) (q : Int) :
    applyStockOp it (.reserve q) =
      if q ≤ 0 then it
      else if q > it.quantity_available then it
      else { it with quantity_reserved := it.quantity_reserved + q } := by
  simp only [applyStockOp, reserve_stock_eq]
  split_ifs <;> rfl

/-- Run-semantics of `release_reservation`. -/
theorem applyStockOp_release (it : InventoryItem) (q : Int) :
    applyStockOp it (.release q) =
      if q ≤ 0 then it
      else { it with quantity_reserved := max 0 (it.quantity_reserved - q) } := by
  simp only [applyStockOp, release_reservation_eq]
  split_ifs <;> rfl

/-- Run-semantics of `sell_stock`. -/
theorem applyStockOp_sell (it : InventoryItem) (q : Int) (oid : Option Nat) :
    applyStockOp it (.sell q oid) =
      if q ≤ 0 then it
      else if q > it.quantity_on_hand then it
      else { it with
        quantity_on_hand := it.quantity_on_hand - q
        quantity_reserved :=
          if it.quantity_reserved > 0 then max 0 (it.quantity_reserved - q)
          else it.quantity_reserved } := by
  simp only [applyStockOp, sell_stock_eq]
  split_ifs <;> rfl

/-- Run-semantics of `receive_stock`. -/
theorem applyStockOp_receive (it : InventoryItem) (q : Int) (r : Option String) :
    applyStockOp it (.receive q r) =
      if q ≤ 0 then it
      else { it with quantity_on_hand := it.quantity_on_hand + q } := by
  simp only [applyStockOp, receive_stock_eq]
  split_ifs <;> rfl

/-- Run-semantics of `adjust_stock`. -/
theorem applyStockOp_adjust (it : InventoryItem) (q : Int) (reason : String)
    (t : StockMovementType) :
    applyStockOp it (.adjust q reason t) =
      if it.quantity_on_hand + q < 0 then it
      else { it with quantity_on_hand := it.quantity_on_hand + q } := by
  simp only [applyStockOp, adjust_stock_eq]
  split_ifs <;> rfl

/-! ### Claim theorems -/

/-- Concrete item of the C5 scenario: on_hand = 10, reserved = 0. -/
def sampleItem10 : InventoryItem :=
  { id := 1, organization_id := 1, sku := "SKU-1", name := "Widget"
    selling_price := 5, quantity_on_hand := 10, quantity_reserved := 0
    quantity_on_order := 0 }

/-- C5: for qty > 0, `reserve_stock` fails with InsufficientStock exactly
when qty exceeds `quantity_available`; on success it adds qty to
`quantity_reserved` and leaves `quantity_on_hand` unchanged; and on the
scenario item (on_hand 10, reserved 0), reserving 20 fails with
InsufficientStock while reserving 5 succeeds leaving 5 available. -/
theorem reserve_stock_spec (it : InventoryItem) (qty : Int) (hq : 0 < qty) :
    (it.reserve_stock qty = .error .insufficientStock ↔ it.quantity_available < qty)
    ∧ (∀ it', it.reserve_stock qty = .ok it' →
        it'.quantity_reserved = it.quantity_reserved + qty
        ∧ it'.quantity_on_hand = it.quantity_on_hand)
    ∧ sampleItem10.reserve_stock 20 = .error .insufficientStock
    ∧ (sampleItem10.reserve_stock 5).map InventoryItem.quantity_available = .ok 5 := by
  have hq' : ¬ qty ≤ 0 := by omega
  refine ⟨?_, ?_, by rfl, by rfl⟩
  · rw [reserve_stock_eq, if_neg hq']
    by_cases hgt : qty > it.quantity_available
    · rw [if_pos hgt]
      exact ⟨fun _ => by omega, fun _ => rfl⟩
    · rw [if_neg hgt]
      exact ⟨fun h => Except.noConfusion h, fun hlt => absurd hlt (by omega)⟩
  · intro it' h
    rw [reserve_stock_eq, if_neg hq'] at h
    by_cases hgt : qty > it.quantity_available
    · rw [if_pos hgt] at h
      exact Except.noConfusion h
    · rw [if_neg hgt] at h
      cases h
      exact ⟨rfl, rfl⟩

/-- C5 witness at concrete input qty = 20 on the scenario item. -/
theorem reserve_stock_spec_witness :
    sampleItem10.reserve_stock 20 = .error .insufficientStock :=
  (reserve_stock_spec sampleItem10 20 (by decide)).1.mpr (by decide)

/-- C6: for qty > 0 on an item with non-negative reservation, `sell_stock`
fails with InsufficientStock exactly when qty exceeds `quantity_on_hand`
(and a failing call changes nothing); on success, on-hand drops by qty,
the reservation drops by qty clamped at 0, and the returned movement is a
SALE of -qty whose `quantity_after` is the new on-hand. -/
theorem sell_stock_spec (it : InventoryItem) (qty : Int) (oid : Option Nat)
    (hq : 0 < qty) (hr : 0 ≤ it.quantity_reserved) :
    (it.sell_stock qty oid = .error .insufficientStock ↔ it.quantity_on_hand < qty)
    ∧ (it.quantity_on_hand < qty → applyStockOp it (.sell qty oid) = it)
    ∧ (∀ it' m, it.sell_stock qty oid = .ok (it', m) →
        it'.quantity_on_hand = it.quantity_on_hand - qty
        ∧ it'.quantity_reserved = max 0 (it.quantity_reserved - qty)
        ∧ m.movement_type = .sale
        ∧ m.quantity = -qty
        ∧ m.quantity_after = it'.quantity_on_hand) := by
  have hq' : ¬ qty ≤ 0 := by omega
  refine ⟨?_, ?_, ?_⟩
  · rw [sell_stock_eq, if_neg hq']
    by_cases hgt : qty > it.quantity_on_hand
    · rw [if_pos hgt]
      exact ⟨fun _ => by omega, fun _ => rfl⟩
    · rw [if_neg hgt]
      exact ⟨fun h => Except.noConfusion h, fun hlt => absurd hlt (by omega)⟩
  · intro hlt
    rw [applyStockOp_sell, if_neg hq', if_pos (by omega)]
  · intro it' m h
    rw [sell_stock_eq, if_neg hq'] at h
    by_cases hgt : qty > it.quantity_on_hand
    · rw [if_pos hgt] at h
      exact Except.noConfusion h
    · rw [if_neg hgt] at h
      simp only [Except.ok.injEq, Prod.mk.injEq] at h
      obtain ⟨hit, hm⟩ := h
      subst hit hm
      refine ⟨rfl, ?_, rfl, rfl, rfl⟩
      show (if it.quantity_reserved > 0 then max 0 (it.quantity_reserved - qty)
        else it.quantity_reserved) = max 0 (it.quantity_reserved - qty)
      split_ifs with hz
      · rfl
      · omega

/-- C6 witness: selling 20 from the scenario item (on-hand 10) fails and
changes nothing. -/
theorem sell_stock_spec_witness :
    applyStockOp sampleItem10 (.sell 20 none) = sampleItem10 :=
  (sell_stock_spec sampleItem10 20 none (by decide) (by decide)).2.1 (by decide)

/-- C7: for qty > 0 on an item with non-negative reservation, a successful
`reserve_stock qty` followed by `release_reservation qty` restores
`quantity_reserved` to its prior value (keeping all other fields); and
releasing when `quantity_reserved = 0` leaves it clamped at 0, even for
qty larger than the current reservation. -/
theorem reserve_release_inverse (it : InventoryItem) (qty : Int)
    (hq : 0 < qty) (hr : 0 ≤ it.quantity_reserved) :
    (∀ it', it.reserve_stock qty = .ok it' →
      it'.release_reservation qty =
        .ok { it' with quantity_reserved := it.quantity_reserved })
    ∧ (it.quantity_reserved = 0 →
        it.release_reservation qty = .ok { it with quantity_reserved := 0 }) := by
  have hq' : ¬ qty ≤ 0 := by omega
  constructor
  · intro it' h
    rw [reserve_stock_eq, if_neg hq'] at h
    by_cases hgt : qty > it.quantity_available
    · rw [if_pos hgt] at h
      exact Except.noConfusion h
    · rw [if_neg hgt] at h
      cases h
      rw [release_reservation_eq, if_neg hq']
      have hmax : max 0 (it.quantity_reserved + qty - qty) = it.quantity_reserved := by
        omega
      show Except.ok { it with quantity_reserved := max 0 (it.quantity_reserved + qty - qty) } = _
      rw [hmax]
  · intro h0
    rw [release_reservation_eq, if_neg hq']
    have hmax : max 0 (it.quantity_reserved - qty) = 0 := by omega
    rw [hmax]

/-- C7 witness: releasing 7 from the scenario item (reserved 0) keeps the
reservation clamped at 0. -/
theorem reserve_release_inverse_witness :
    sampleItem10.release_reservation 7 =
      .ok { sampleItem10 with quantity_reserved := 0 } :=
  (reserve_release_inverse sampleItem10 7 (by decide) (by decide)).2 (by decide)

/-- One step of any stock operation (succeeding or failing) preserves
non-negativity of both counters. -/
theorem applyStockOp_nonneg (it : InventoryItem) (op : StockOp)
    (h1 : 0 ≤ it.quantity_on_hand) (h2 : 0 ≤ it.quantity_reserved) :
    0 ≤ (applyStockOp it op).quantity_on_hand
    ∧ 0 ≤ (applyStockOp it op).quantity_reserved := by
  cases op with
  | reserve q =>
    rw [applyStockOp_reserve]
    split_ifs
    · exact ⟨h1, h2⟩
    · exact ⟨h1, h2⟩
    · refine ⟨h1, ?_⟩
      show 0 ≤ it.quantity_reserved + q
      omega
  | release q =>
    rw [applyStockOp_release]
    split_ifs
    · exact ⟨h1, h2⟩
    · refine ⟨h1, ?_⟩
      show 0 ≤ max 0 (it.quantity_reserved - q)
      omega
  | sell q oid =>
    rw [applyStockOp_sell]
    split_ifs
    · exact ⟨h1, h2⟩
    · exact ⟨h1, h2⟩
    · refine ⟨?_, ?_⟩
      · show 0 ≤ it.quantity_on_hand - q
        omega
      · show 0 ≤ max 0 (it.quantity_reserved - q)
        omega
    · refine ⟨?_, h2⟩
      show 0 ≤ it.quantity_on_hand - q
      omega
  | receive q r =>
    rw [applyStockOp_receive]
    split_ifs
    · exact ⟨h1, h2⟩
    · refine ⟨?_, h2⟩
      show 0 ≤ it.quantity_on_hand + q
      omega
  | adjust q reason t =>
    rw [applyStockOp_adjust]
    split_ifs with hneg
    · exact ⟨h1, h2⟩
    · refine ⟨?_, h2⟩
      show 0 ≤ it.quantity_on_hand + q
      omega

/-- C2: starting from non-negative counters, after any sequence of
reserve / release / sell / receive / adjust calls (each succeeding or
failing), both counters are still non-negative and `quantity_available`
equals `max 0 (on_hand - reserved)`. -/
theorem stock_invariant (it : InventoryItem) (ops : List StockOp)
    (h1 : 0 ≤ it.quantity_on_hand) (h2 : 0 ≤ it.quantity_reserved) :
    0 ≤ (ops.foldl applyStockOp it).quantity_on_hand
    ∧ 0 ≤ (ops.foldl applyStockOp it).quantity_reserved
    ∧ (ops.foldl applyStockOp it).quantity_available
        = max 0 ((ops.foldl applyStockOp it).quantity_on_hand
            - (ops.foldl applyStockOp it).quantity_reserved) := by
  induction ops generalizing it with
  | nil => exact ⟨h1, h2, rfl⟩
  | cons op rest ih =>
    obtain ⟨g1, g2⟩ := applyStockOp_nonneg it op h1 h2
    simpa using ih (applyStockOp it op) g1 g2

/-- C2 witness on a concrete mixed sequence of succeeding and failing
calls. -/
theorem stock_invariant_witness :
    0 ≤ (([StockOp.reserve 3, .sell 4 none, .release 10, .receive 7 none,
           .adjust (-2) "shrink" .damage]).foldl applyStockOp sampleItem10).quantity_on_hand :=
  (stock_invariant sampleItem10
    [StockOp.reserve 3, .sell 4 none, .release 10, .receive 7 none,
     .adjust (-2) "shrink" .damage] (by decide) (by decide)).1

/-- Sum of the line totals decomposes linewise into subtotal minus
discount plus tax. -/
theorem sum_total_decomp (l : List OrderItem) :
    (l.map OrderItem.total).sum =
      (l.map OrderItem.subtotal).sum - (l.map OrderItem.discount_amount).sum
        + (l.map OrderItem.tax_amount).sum := by
  induction l with
  | nil => simp
  | cons i rest ih =>
    simp only [List.map_cons, List.sum_cons, ih, OrderItem.total,
      OrderItem.taxable_amount]
    ring

/-- C4: `grand_total` is the sum of line totals plus shipping cost plus
handling fee; each line's derived amounts follow the documented chain
(subtotal, discount, taxable, tax, total); and consequently `grand_total`
equals `subtotal - total_discount + total_tax + shipping + handling`.
Every total is a pure function of the current items, so two reads with no
mutation in between agree by determinism of the definitions. -/
theorem order_totals_spec (o : Order) :
    o.grand_total = (o.items.map OrderItem.total).sum + o.shipping_cost + o.handling_fee
    ∧ (∀ i : OrderItem,
        i.subtotal = i.unit_price * i.quantity
        ∧ i.discount_amount = i.subtotal * (i.discount_percent / 100)
        ∧ i.taxable_amount = i.subtotal - i.discount_amount
        ∧ i.tax_amount = i.taxable_amount * (i.tax_percent / 100)
        ∧ i.total = i.taxable_amount + i.tax_amount)
    ∧ o.grand_total = o.subtotal - o.total_discount + o.total_tax
        + o.shipping_cost + o.handling_fee := by
  refine ⟨rfl, fun i => ⟨rfl, rfl, rfl, rfl, rfl⟩, ?_⟩
  unfold Order.grand_total Order.subtotal Order.total_discount Order.total_tax
  rw [sum_total_decomp]

/-- A lifecycle call made from a status it is not permitted in fails with
InvalidTransition (every transition method checks its status guard before
anything else). -/
theorem applyCall_notPermitted (o : Order) (c : OrderCall)
    (h : permitted c o.status = false) :
    applyCall o c = .error .invalidTransition := by
  cases c with
  | submit =>
    have hne : o.status ≠ .draft := by
      simpa [permitted] using h
    simp only [applyCall, Order.submit, if_pos hne]
  | confirm =>
    have hne : o.status ≠ .pending := by
      simpa [permitted] using h
    simp only [applyCall, Order.confirm, if_pos hne]
  | ship t =>
    have hne : o.status ≠ .confirmed ∧ o.status ≠ .processing := by
      simpa [permitted] using h
    simp only [applyCall, Order.ship, if_pos hne]
  | deliver =>
    have hne : o.status ≠ .shipped := by
      simpa [permitted] using h
    simp only [applyCall, Order.deliver, if_pos hne]
  | cancel r =>
    have hne : o.status.can_cancel = false := h
    simp only [applyCall, Order.cancel, hne, if_neg]
    exact if_neg (by simp)

/-- A successful lifecycle call moves the status along the lifecycle
graph. -/
theorem applyCall_ok_edge (o : Order) (c : OrderCall) (o' : Order)
    (h : applyCall o c = .ok o') :
    lifecycleEdge c o.status o'.status = true := by
  cases c with
  | submit =>
    simp only [applyCall, Order.submit] at h
    by_cases hd : o.status = .draft
    · rw [if_neg (not_not_intro hd)] at h
      by_cases he : o.items.isEmpty
      · rw [if_pos he] at h
        exact Except.noConfusion h
      · rw [if_neg he] at h
        cases h
        rw [hd]
        rfl
    · rw [if_pos hd] at h
      exact Except.noConfusion h
  | confirm =>
    simp only [applyCall, Order.confirm] at h
    by_cases hd : o.status = .pending
    · rw [if_neg (not_not_intro hd)] at h
      by_cases he : o.items.isEmpty
      · rw [if_pos he] at h
        exact Except.noConfusion h
      · rw [if_neg he] at h
        cases h
        rw [hd]
        rfl
    · rw [if_pos hd] at h
      exact Except.noConfusion h
  | ship t =>
    simp only [applyCall, Order.ship] at h
    by_cases hc : o.status = .confirmed
    · rw [if_neg (by simp [hc])] at h
      cases h
      rw [hc]
      rfl
    · by_cases hp : o.status = .processing
      · rw [if_neg (by simp [hp])] at h
        cases h
        rw [hp]
        rfl
      · rw [if_pos ⟨hc, hp⟩] at h
        exact Except.noConfusion h
  | deliver =>
    simp only [applyCall, Order.deliver] at h
    by_cases hd : o.status = .shipped
    · rw [if_neg (not_not_intro hd)] at h
      cases h
      rw [hd]
      rfl
    · rw [if_pos hd] at h
      exact Except.noConfusion h
  | cancel r =>
    simp only [applyCall, Order.cancel] at h
    cases hcv : o.status.can_cancel with
    | true =>
      rw [hcv] at h
      rw [if_pos rfl] at h
      cases h
      show o.status.can_cancel && (OrderStatus.cancelled == OrderStatus.cancelled) = true
      rw [hcv]
      rfl
    | false =>
      rw [hcv] at h
      rw [if_neg (by simp)] at h
      exact Except.noConfusion h

/-- Each run step either keeps the status or moves it along some edge. -/
theorem runCall_status (o : Order) (c : OrderCall) :
    (runCall o c).status = o.status ∨ statusStep o.status (runCall o c).status := by
  unfold runCall
  cases happ : applyCall o c with
  | error e => exact .inl rfl
  | ok o' => exact .inr ⟨c, applyCall_ok_edge o c o' happ⟩

/-- Over any sequence of lifecycle calls, the final status is reachable
from the initial one through the lifecycle graph. -/
theorem foldl_runCall_reachable (cs : List OrderCall) (o : Order) :
    Relation.ReflTransGen statusStep o.status ((cs.foldl runCall o).status) := by
  induction cs generalizing o with
  | nil => exact .refl
  | cons c rest ih =>
    have tail := ih (runCall o c)
    cases runCall_status o c with
    | inl heq =>
      rw [heq] at tail
      exact tail
    | inr hstep =>
      exact (Relation.ReflTransGen.single hstep).trans tail

/-- C3: a lifecycle call made from a status not permitted for it fails
with InvalidTransition and leaves the order (hence its status) unchanged;
a successful call moves the status exactly along its lifecycle edge
(submit DRAFT→PENDING, confirm PENDING→CONFIRMED, ship
CONFIRMED/PROCESSING→SHIPPED, deliver SHIPPED→DELIVERED, cancel
cancellable→CANCELLED); and over any sequence of such calls the status
only ever moves along the lifecycle graph. -/
theorem order_lifecycle_spec (o : Order) (c : OrderCall) :
    (permitted c o.status = false →
      applyCall o c = .error .invalidTransition ∧ runCall o c = o)
    ∧ (∀ o', applyCall o c = .ok o' → lifecycleEdge c o.status o'.status = true)
    ∧ (∀ cs : List OrderCall,
        Relation.ReflTransGen statusStep o.status ((cs.foldl runCall o).status)) := by
  refine ⟨?_, fun o' h => applyCall_ok_edge o c o' h, fun cs => foldl_runCall_reachable cs o⟩
  intro h
  have herr := applyCall_notPermitted o c h
  refine ⟨herr, ?_⟩
  unfold runCall
  rw [herr]

/-- Concrete DRAFT order with one line item (for witnesses). -/
def sampleOrderItem : OrderItem :=
  { id := 11, product_id := 1, product_name := "Widget", sku := "SKU-1"
    quantity := 2, unit_price := 25, discount_percent := 0, tax_percent := 0
    notes := none }

/-- Concrete order in SHIPPED status (for witnesses and counterexamples). -/
def sampleOrderShipped : Order :=
  { id := 100, order_number := "ORD-20260101-00001", organization_id := 1
    customer_name := "Alice", customer_email := none
    items := [sampleOrderItem], status := .shipped
    shipping_cost := 0, handling_fee := 0, internal_notes := none
    created_by := none }

/-- C3 witness: cancelling a SHIPPED order fails with InvalidTransition
and leaves it unchanged. -/
theorem order_lifecycle_spec_witness :
    applyCall sampleOrderShipped (.cancel none) = .error .invalidTransition
    ∧ runCall sampleOrderShipped (.cancel none) = sampleOrderShipped :=
  (order_lifecycle_spec sampleOrderShipped (.cancel none)).1 (by decide)

/-- The release loop never raises when every line quantity is at least 1
(pydantic guarantees this for persisted order lines). -/
theorem releaseAll_no_error (items : List OrderItem) (s : ServiceState)
    (hq : ∀ i ∈ items, 1 ≤ i.quantity) : (releaseAll items s).2 = none := by
  induction items generalizing s with
  | nil => rfl
  | cons i rest ih =>
    simp only [releaseAll]
    split
    · exact ih s (fun j hj => hq j (List.mem_cons_of_mem i hj))
    · split
      · rename_i inv _ e heq
        rw [release_reservation_eq] at heq
        split_ifs at heq with hle
        have := hq i (List.mem_cons_self i rest)
        omega
      · exact ih _ (fun j hj => hq j (List.mem_cons_of_mem i hj))

/-- The release loop only touches inventory rows: orders and the movement
log are unchanged. -/
theorem releaseAll_orders (items : List OrderItem) (s : ServiceState) :
    (releaseAll items s).1.orders = s.orders
    ∧ (releaseAll items s).1.movements = s.movements := by
  induction items generalizing s with
  | nil => exact ⟨rfl, rfl⟩
  | cons i rest ih =>
    simp only [releaseAll]
    split
    · exact ih s
    · split
      · exact ⟨rfl, rfl⟩
      · rename_i inv _ inv' _
        exact ih (updateInventory s inv')

/-- The sell loop only touches inventory rows and the movement log: orders
are unchanged. -/
theorem sellAll_orders (oid : Nat) (items : List OrderItem) (s : ServiceState) :
    (sellAll oid items s).1.orders = s.orders := by
  induction items generalizing s with
  | nil => rfl
  | cons i rest ih =>
    simp only [sellAll]
    split
    · exact ih s
    · split
      · rfl
      · rename_i inv _ inv' m _
        exact ih (updateInventory (addMovement s m) inv')

/-- Concrete persisted world for the C1 counterexample: a SHIPPED order
whose line still references the inventory item, which has 5 units
reserved. -/
def sampleStateShipped : ServiceState :=
  { orders := [sampleOrderShipped]
    inventory := [{ sampleItem10 with quantity_reserved := 5 }]
    movements := [] }

/-- C1 counterexample: cancelling the SHIPPED order fails with
InvalidTransition, yet the referenced item's `quantity_reserved` has
dropped from 5 to 3 (the line quantity 2 was released and persisted before
the failing transition) — the claimed "leaves every referenced
InventoryItem's quantity_reserved unchanged" is false on the code. -/
theorem cancel_order_partial_mutation_cex :
    (cancel_order sampleStateShipped 100 none).2 = .error .invalidTransition
    ∧ ((cancel_order sampleStateShipped 100 none).1.inventory.map
        InventoryItem.quantity_reserved) = [3]
    ∧ sampleStateShipped.inventory.map InventoryItem.quantity_reserved = [5] :=
  ⟨rfl, rfl, rfl⟩

/-- C1 amended: when the order's status forbids the transition, the
operation does fail and the order rows (hence the order's status) are
untouched, but the inventory mutations performed before the failing
transition persist: `cancel_order` has already run the release loop over
every line, and `ship_order` (when its sell loop raised no error) has
already run the sell loop, before the transition guard fires. -/
theorem cancel_ship_no_rollback (s : ServiceState) (oid : Nat) (o : Order)
    (r t : Option String)
    (ho : getOrder s oid = some o)
    (hq : ∀ i ∈ o.items, 1 ≤ i.quantity) :
    (o.status.can_cancel = false →
      cancel_order s oid r = ((releaseAll o.items s).1, .error .invalidTransition))
    ∧ (o.status ≠ .confirmed ∧ o.status ≠ .processing →
        ∀ s1, sellAll oid o.items s = (s1, none) →
          ship_order s oid t = (s1, .error .invalidTransition))
    ∧ (releaseAll o.items s).1.orders = s.orders := by
  refine ⟨?_, ?_, (releaseAll_orders o.items s).1⟩
  · intro hcc
    have hcancel : o.cancel r = .error .invalidTransition := by
      unfold Order.cancel
      rw [hcc]
      exact if_neg (by simp)
    unfold cancel_order
    rw [ho]
    split
    · rename_i heq
      exact Option.noConfusion heq
    · rename_i o2 heq
      injection heq with h
      subst h
      split
      · rename_i s1 e heq2
        have hrel := releaseAll_no_error o.items s hq
        rw [heq2] at hrel
        exact absurd hrel (by simp)
      · rename_i s1 heq2
        rw [hcancel, heq2]
  · intro hns s1 hsell
    have hship : o.ship t = .error .invalidTransition := by
      unfold Order.ship
      rw [if_pos hns]
    unfold ship_order
    rw [ho]
    split
    · rename_i heq
      exact Option.noConfusion heq
    · rename_i o2 heq
      injection heq with h
      subst h
      split
      · rename_i s2 e heq2
        rw [hsell] at heq2
        simp at heq2
      · rename_i s2 heq2
        rw [hsell] at heq2
        injection heq2 with h1 h2
        subst h1
        rw [hship]

/-- C1 amended-claim witness on the concrete SHIPPED state. -/
theorem cancel_ship_no_rollback_witness :
    cancel_order sampleStateShipped 100 none
      = ((releaseAll sampleOrderShipped.items sampleStateShipped).1,
          .error .invalidTransition) :=
  (cancel_ship_no_rollback sampleStateShipped 100 sampleOrderShipped none none
    (by rfl) (by decide)).1 (by decide)

/-- A number below `10 ^ k` has at most `k` decimal digits. -/
theorem decRep_length_le (k n : ℕ) (hk : 1 ≤ k) (h : n < 10 ^ k) :
    (decRep n).length ≤ k := by
  induction k generalizing n with
  | zero => omega
  | succ k ih =>
    unfold decRep
    split
    · simp
    · rename_i h10
      have hn : n / 10 < 10 ^ k := by
        rw [Nat.div_lt_iff_lt_mul (by norm_num)]
        calc n < 10 ^ (k + 1) := h
          _ = 10 ^ k * 10 := by ring
      cases Nat.eq_zero_or_pos k with
      | inl hk0 =>
        subst hk0
        simp at hn
        omega
      | inr hkpos =>
        have hrec := ih (n / 10) hkpos hn
        rw [List.length_append]
        simp
        omega

/-- A sequence number below 100000 pads to exactly 5 characters. -/
theorem pad5_length (n : ℕ) (h : n < 100000) : (pad5 n).length = 5 := by
  have h5 : n < 10 ^ 5 := by
    have : (10 : ℕ) ^ 5 = 100000 := by norm_num
    omega
  have hle : (decRep n).length ≤ 5 := decRep_length_le 5 n (by norm_num) h5
  show (List.replicate (5 - (decRep n).length) '0' ++ decRep n).length = 5
  rw [List.length_append, List.length_replicate]
  omega

/-- C8: `create_order` assigns order number
`ORD-<date>-<pad5 (count + 1)>` where `count` is the organization's
existing order count (5-digit zero-padded when below 100000); the created
order starts in DRAFT; and after creation the organization's order count
has grown by exactly one, so numbers are allocated sequentially per
organization.  The current UTC date string and fresh UUID are external
inputs of the embedding. -/
theorem create_order_spec (s : ServiceState) (org : Nat) (cname : String)
    (cemail : Option String) (cby : Option Nat) (nid : Nat) (d : String) :
    (create_order s org cname cemail cby nid d).1.order_number
        = "ORD-" ++ d ++ "-" ++
            pad5 ((s.orders.filter (fun o => o.organization_id == org)).length + 1)
    ∧ (create_order s org cname cemail cby nid d).1.status = .draft
    ∧ ((s.orders.filter (fun o => o.organization_id == org)).length + 1 < 100000 →
        (pad5 ((s.orders.filter (fun o => o.organization_id == org)).length + 1)).length
          = 5)
    ∧ ((create_order s org cname cemail cby nid d).2.orders.filter
          (fun o => o.organization_id == org)).length
        = (s.orders.filter (fun o => o.organization_id == org)).length + 1 := by
  refine ⟨rfl, rfl, fun h => pad5_length _ h, ?_⟩
  show ((s.orders ++ [(create_order s org cname cemail cby nid d).1]).filter
      (fun o => o.organization_id == org)).length = _
  rw [List.filter_append, List.length_append]
  simp [create_order]

/-- Empty persisted world (for witnesses). -/
def emptyState : ServiceState := { orders := [], inventory := [], movements := [] }

/-- C8 witness: the first order of organization 1 in an empty world gets a
5-character sequence component. -/
theorem create_order_spec_witness :
    (pad5 ((emptyState.orders.filter (fun o => o.organization_id == 1)).length + 1)).length
      = 5 :=
  (create_order_spec emptyState 1 "Alice" none none 7 "20260101").2.2.1 (by decide)

/-- C9: whenever `add_item_to_order` succeeds with an explicit unit-price
override, the appended line carries the override only when it is non-zero;
a zero override is silently replaced by the product's selling price
(Python's falsy `unit_price or inventory_item.selling_price`). -/
theorem add_item_price_override (s : ServiceState) (oid pid : Nat)
    (inv : InventoryItem) (qty : Int) (p disc : ℚ) (nid : Nat)
    (hi : getInventory s pid = some inv) :
    ∀ s' o', add_item_to_order s oid pid qty (some p) disc nid = (s', .ok o') →
      ∃ prev, o'.items = prev ++
        [{ id := nid, product_id := inv.id, product_name := inv.name
           sku := inv.sku, quantity := qty
           unit_price := if p = 0 then inv.selling_price else p
           discount_percent := disc, tax_percent := 0, notes := none }] := by
  intro s' o' hcall
  unfold add_item_to_order at hcall
  dsimp only at hcall
  split at hcall
  · simp at hcall
  · rename_i ordr heqo
    split at hcall
    · simp at hcall
    · rename_i inv2 heqi
      rw [hi] at heqi
      injection heqi with hinv
      subst hinv
      split_ifs at hcall with havail hvalid
      · simp at hcall
      · cases hadd : ordr.add_item
            { id := nid, product_id := inv.id, product_name := inv.name
              sku := inv.sku, quantity := qty
              unit_price := effective_unit_price (some p) inv.selling_price
              discount_percent := disc, tax_percent := 0, notes := none } with
        | error e =>
          rw [hadd] at hcall
          simp at hcall
        | ok order2 =>
          rw [hadd] at hcall
          cases hres : inv.reserve_stock qty with
          | error e =>
            rw [hres] at hcall
            simp at hcall
          | ok inv3 =>
            rw [hres] at hcall
            have hsnd : Except.ok (ε := DomainError) order2 = Except.ok o' :=
              congrArg Prod.snd hcall
            injection hsnd with hsnd
            subst hsnd
            unfold Order.add_item at hadd
            split_ifs at hadd with hmod
            injection hadd with hadd
            subst hadd
            exact ⟨ordr.items, rfl⟩
      · simp at hcall

/-- Concrete DRAFT order and a world holding it plus the sample item (for
witnesses). -/
def sampleOrderDraft : Order :=
  { id := 200, order_number := "ORD-20260101-00001", organization_id := 1
    customer_name := "Alice", customer_email := none
    items := [], status := .draft
    shipping_cost := 0, handling_fee := 0, internal_notes := none
    created_by := none }

/-- World with the DRAFT order and the sample inventory item. -/
def sampleStateDraft : ServiceState :=
  { orders := [sampleOrderDraft], inventory := [sampleItem10], movements := [] }

/-- C9 witness: adding 2 units with unit-price override 0 succeeds and the
appended line carries the selling price 5, not 0. -/
theorem add_item_price_override_witness :
    ∃ prev,
      ({ sampleOrderDraft with items :=
          [{ id := 77, product_id := sampleItem10.id
             product_name := sampleItem10.name, sku := sampleItem10.sku
             quantity := 2, unit_price := sampleItem10.selling_price
             discount_percent := 0, tax_percent := 0, notes := none }] } : Order).items
        = prev ++
          [{ id := 77, product_id := sampleItem10.id
             product_name := sampleItem10.name, sku := sampleItem10.sku
             quantity := 2, unit_price := sampleItem10.selling_price
             discount_percent := 0, tax_percent := 0, notes := none }] :=
  add_item_price_override sampleStateDraft 200 1 sampleItem10 2 0 0 77 (by rfl)
    (add_item_to_order sampleStateDraft 200 1 2 (some 0) 0 77).1
    { sampleOrderDraft with items :=
        [{ id := 77, product_id := sampleItem10.id
           product_name := sampleItem10.name, sku := sampleItem10.sku
           quantity := 2, unit_price := sampleItem10.selling_price
           discount_percent := 0, tax_percent := 0, notes := none }] } (by rfl)

/-- The release loop is a no-op when every referenced product is absent
from inventory. -/
theorem releaseAll_absent (items : List OrderItem) (s : ServiceState)
    (h : ∀ i ∈ items, getInventory s i.product_id = none) :
    releaseAll items s = (s, none) := by
  induction items with
  | nil => rfl
  | cons i rest ih =>
    simp only [releaseAll]
    rw [h i (List.mem_cons_self i rest)]
    exact ih (fun j hj => h j (List.mem_cons_of_mem i hj))

/-- The sell loop is a no-op when every referenced product is absent from
inventory. -/
theorem sellAll_absent (oid : Nat) (items : List OrderItem) (s : ServiceState)
    (h : ∀ i ∈ items, getInventory s i.product_id = none) :
    sellAll oid items s = (s, none) := by
  induction items with
  | nil => rfl
  | cons i rest ih =>
    simp only [sellAll]
    rw [h i (List.mem_cons_self i rest)]
    exact ih (fun j hj => h j (List.mem_cons_of_mem i hj))

/-- C10: when every product referenced by the order's lines is absent from
the inventory repository, `cancel_order` and `ship_order` still succeed
(given a status their transition permits), transitioning the order to
CANCELLED resp. SHIPPED while leaving inventory rows and the movement log
untouched (missing items are silently skipped, no NotFound raised) — in
contrast to `add_item_to_order`, which fails with NotFound when the
product is missing. -/
theorem missing_inventory_skipped (s : ServiceState) (oid : Nat) (o : Order)
    (r t : Option String) (pid : Nat) (qty : Int) (up : Option ℚ) (disc : ℚ)
    (nid : Nat)
    (ho : getOrder s oid = some o)
    (habsent : ∀ i ∈ o.items, getInventory s i.product_id = none) :
    (o.status.can_cancel = true →
      ∃ o', cancel_order s oid r = (updateOrder s o', .ok o')
        ∧ o'.status = .cancelled)
    ∧ ((o.status = .confirmed ∨ o.status = .processing) →
      ∃ o', ship_order s oid t = (updateOrder s o', .ok o')
        ∧ o'.status = .shipped)
    ∧ (getInventory s pid = none →
        add_item_to_order s oid pid qty up disc nid = (s, .error .notFound)) := by
  refine ⟨?_, ?_, ?_⟩
  · intro hcc
    cases hco : o.cancel r with
    | error e =>
      exfalso
      have hco2 := hco
      unfold Order.cancel at hco2
      rw [hcc] at hco2
      rw [if_pos rfl] at hco2
      exact Except.noConfusion hco2
    | ok oc =>
      have hstat : oc.status = .cancelled := by
        have hco2 := hco
        unfold Order.cancel at hco2
        rw [hcc] at hco2
        rw [if_pos rfl] at hco2
        injection hco2 with h
        rw [← h]
      refine ⟨oc, ?_, hstat⟩
      unfold cancel_order
      rw [ho]
      split
      · rename_i heq
        exact Option.noConfusion heq
      · rename_i o2 heq
        injection heq with h
        subst h
        split
        · rename_i s1 e heq2
          rw [releaseAll_absent o.items s habsent] at heq2
          simp at heq2
        · rename_i s1 heq2
          rw [releaseAll_absent o.items s habsent] at heq2
          injection heq2 with h1 h2
          subst h1
          rw [hco]
  · intro hstat
    cases hso : o.ship t with
    | error e =>
      exfalso
      have hso2 := hso
      unfold Order.ship at hso2
      rw [if_neg (by rcases hstat with h | h <;> simp [h])] at hso2
      exact Except.noConfusion hso2
    | ok oc =>
      have hocs : oc.status = .shipped := by
        have hso2 := hso
        unfold Order.ship at hso2
        rw [if_neg (by rcases hstat with h | h <;> simp [h])] at hso2
        injection hso2 with h
        rw [← h]
      refine ⟨oc, ?_, hocs⟩
      unfold ship_order
      rw [ho]
      split
      · rename_i heq
        exact Option.noConfusion heq
      · rename_i o2 heq
        injection heq with h
        subst h
        split
        · rename_i s1 e heq2
          rw [sellAll_absent oid o.items s habsent] at heq2
          simp at heq2
        · rename_i s1 heq2
          rw [sellAll_absent oid o.items s habsent] at heq2
          injection heq2 with h1 h2
          subst h1
          rw [hso]
  · intro habspid
    unfold add_item_to_order
    rw [ho]
    split
    · rename_i heq
      exact Option.noConfusion heq
    · rename_i o2 heq
      injection heq with h
      subst h
      split
      · rfl
      · rename_i inv heq2
        rw [habspid] at heq2
        exact Option.noConfusion heq2

/-- Concrete CONFIRMED order whose line references product 1 (for the C10
witness). -/
def sampleOrderConfirmed : Order :=
  { id := 101, order_number := "ORD-20260101-00002", organization_id := 1
    customer_name := "Bob", customer_email := none
    items := [sampleOrderItem], status := .confirmed
    shipping_cost := 0, handling_fee := 0, internal_notes := none
    created_by := none }

/-- World holding the CONFIRMED order and no inventory at all. -/
def sampleStateNoInv : ServiceState :=
  { orders := [sampleOrderConfirmed], inventory := [], movements := [] }

/-- C10 witness: shipping the CONFIRMED order whose product is missing
from inventory still succeeds with status SHIPPED. -/
theorem missing_inventory_skipped_witness :
    ∃ o', ship_order sampleStateNoInv 101 none = (updateOrder sampleStateNoInv o', .ok o')
      ∧ o'.status = .shipped :=
  (missing_inventory_skipped sampleStateNoInv 101 sampleOrderConfirmed none none
    1 1 none 0 5 (by rfl) (by decide)).2.1 (Or.inl (by decide))

end Backend
